import Mathlib

/-!
Shallow embedding of `src/app.py` (a single-file Flask application) and
proofs about its HTTP behaviour.

The application registers one route, `GET /`, whose handler `index`
returns `render_template_string` applied to a fixed triple-quoted HTML
literal, and (in the `__main__` block) starts the server with
`app.run(debug=True, host='0.0.0.0', port=5000)`.

Routing itself is performed by Flask/Werkzeug; `dispatch` below embeds
that framework behaviour for an application whose only rule is
`@app.route('/')` with the default method set.
-/

namespace MicroservicesApp

/-- An HTTP request as seen by the application: method, path, query
string, headers and payload body.  The handler in `app.py` never reads
anything beyond method and path, but the full shape is kept so that
independence properties can be stated. -/
structure Request where
  method : String
  path : String
  query : String
  headers : List (String × String)
  payload : String
deriving Repr, DecidableEq

/-- An HTTP response at the wire level: status code, the value of the
`Content-Type` header, and the body. -/
structure Response where
  status : Nat
  contentType : String
  body : String
deriving Repr, DecidableEq

/-- The fixed HTML document: the exact content of the triple-quoted
string literal passed to `render_template_string` in `index` (lines
7-28 of `src/app.py`), including its leading newline and the
indentation that the triple-quoted Python literal carries on every
line.  Braces of the inline CSS are written with `\x7b`/`\x7d`
escapes. -/
def htmlTemplate : String := "\n    <!DOCTYPE html>\n    <html>\n    <head>\n        <title>Microservices Architecture</title>\n        <style>\n            body \x7b font-family: Arial; background: linear-gradient(135deg, #667eea 0%, #764ba2 100%); min-height: 100vh; display: flex; align-items: center; justify-content: center; \x7d\n            .container \x7b background: white; padding: 50px; border-radius: 20px; text-align: center; box-shadow: 0 20px 40px rgba(0,0,0,0.1); \x7d\n            h1 \x7b color: #333; margin-bottom: 20px; \x7d\n            p \x7b color: #666; font-size: 18px; margin-bottom: 15px; \x7d\n        </style>\n    </head>\n    <body>\n        <div class=\"container\">\n            <h1>🏗️ Microservices Architecture</h1>\n            <p>Professional microservices architecture implementation</p>\n            <p>Scalable, distributed system design</p>\n            <p>Docker containers, API Gateway, Service Discovery</p>\n        </div>\n    </body>\n    </html>\n    "

/-- Does the list start with the given pattern (character-wise)? -/
def listPrefixOf : List Char → List Char → Bool
  | [], _ => true
  | _ :: _, [] => false
  | a :: as, b :: bs => a == b && listPrefixOf as bs

/-- Does the pattern occur as a contiguous sublist? -/
def listContains (pat : List Char) : List Char → Bool
  | [] => listPrefixOf pat []
  | c :: cs => listPrefixOf pat (c :: cs) || listContains pat cs

/-- `containsSubstr s pat` holds when `pat` occurs in `s` as a
contiguous substring. -/
def containsSubstr (s pat : String) : Bool :=
  listContains pat.data s.data

/-- `beginsWith s pat`: `s` starts with `pat`. -/
def beginsWith (s pat : String) : Bool :=
  listPrefixOf pat.data s.data

/-- `finishesWith s pat`: `s` ends with `pat`. -/
def finishesWith (s pat : String) : Bool :=
  listPrefixOf pat.data.reverse s.data.reverse

/-- Split a character list at every occurrence of the separator
character (the analogue of splitting a string into its lines when the
separator is a newline). -/
def splitOnChar (c : Char) : List Char → List (List Char)
  | [] => [[]]
  | a :: as =>
    match splitOnChar c as with
    | [] => if a == c then [[], []] else [[a]]
    | h :: t => if a == c then [] :: h :: t else (a :: h) :: t

/-- Jinja2 statement/expression/comment delimiters with their default
configuration: a template is plain text exactly when none of
`\x7b\x7b`, `\x7b%`, `\x7b#` occurs in it. -/
def hasJinjaDelimiter (s : String) : Bool :=
  containsSubstr s "\x7b\x7b" || containsSubstr s "\x7b%" || containsSubstr s "\x7b#"

/-- Strip one trailing newline sequence, as the Jinja2 lexer does when
`keep_trailing_newline` is off (the Flask default). -/
def dropTrailingNewline (s : String) : String :=
  if finishesWith s "\r\n" then s.dropRight 2
  else if finishesWith s "\n" then s.dropRight 1
  else if finishesWith s "\r" then s.dropRight 1
  else s

/-- Embedding of Flask's `render_template_string` restricted to what
the application exercises: a template containing no Jinja2 delimiter
renders to itself except that one trailing newline is stripped
(`keep_trailing_newline = False`, the Flask/Jinja2 default; interior
newline normalisation is omitted, `app.py`'s template containing only
LF).  Evaluation of templates that do contain directives is not
modelled (`none`). -/
def render_template_string (s : String) : Option String :=
  if hasJinjaDelimiter s then none
  else some (dropTrailingNewline s)

/-- The handler registered on `/` (function `index`, lines 5-28 of
`src/app.py`): it returns the rendered fixed template. -/
def index : Option String := render_template_string htmlTemplate

/-- Flask's `Content-Type` header value for a string response. -/
def htmlContentType : String := "text/html; charset=utf-8"

/-- The Werkzeug default 404 page, produced by the framework for any
path that matches no registered rule; `app.py` customises nothing
about it. -/
def notFoundBody : String := "<!doctype html>\n<html lang=en>\n<title>404 Not Found</title>\n<h1>Not Found</h1>\n<p>The requested URL was not found on the server. If you entered the URL manually please check your spelling and try again.</p>\n"

/-- The Werkzeug default 405 page, produced by the framework when the
path matches a rule but the method is not among the rule's methods. -/
def methodNotAllowedBody : String := "<!doctype html>\n<html lang=en>\n<title>405 Method Not Allowed</title>\n<h1>Method Not Allowed</h1>\n<p>The method is not allowed for the requested URL.</p>\n"

/-- Flask/Werkzeug dispatch for the application of `src/app.py`, whose
only URL rule is `@app.route('/')` with the default method set.  The
default set is GET together with the automatic methods Werkzeug adds:
HEAD (handled like GET with the body stripped from the wire response)
and OPTIONS (answered by the framework with an empty 200).  A request
whose path matches no rule gets the framework 404 whatever its method;
a request for `/` with any other method gets the framework 405. -/
def dispatch (req : Request) : Response :=
  if req.path = "/" then
    if req.method = "GET" then
      match index with
      | some b => { status := 200, contentType := htmlContentType, body := b }
      | none => { status := 500, contentType := htmlContentType, body := "" }
    else if req.method = "HEAD" then
      { status := 200, contentType := htmlContentType, body := "" }
    else if req.method = "OPTIONS" then
      { status := 200, contentType := htmlContentType, body := "" }
    else
      { status := 405, contentType := htmlContentType, body := methodNotAllowedBody }
  else
    { status := 404, contentType := htmlContentType, body := notFoundBody }

/-- Server state threaded explicitly through request handling.  The
application code holds no mutable state that the handler touches; the
`effects` log records any write or external call a handler performs
(none, for this application). -/
structure ServerState where
  effects : List String
deriving Repr, DecidableEq

/-- One request step with explicit state threading: `index` consists of
a single `return` of a pure expression, so the state passes through
unchanged and the response is `dispatch` of the request. -/
def dispatchSt (st : ServerState) (req : Request) : ServerState × Response :=
  (st, dispatch req)

/-- Process a list of requests in order, threading the server state. -/
def serveFrom (st : ServerState) : List Request → ServerState × List Response
  | [] => (st, [])
  | r :: rs =>
    let p := dispatchSt st r
    let q := serveFrom p.1 rs
    (q.1, p.2 :: q.2)

/-- The configuration `app.run` is called with in the `__main__` block
(line 31 of `src/app.py`). -/
structure RunConfig where
  host : String
  port : Nat
  debug : Bool
deriving Repr, DecidableEq

/-- `app.run(debug=True, host='0.0.0.0', port=5000)`. -/
def mainRunConfig : RunConfig :=
  { host := "0.0.0.0", port := 5000, debug := true }

/-- A plain GET request for the root path. -/
def getRootReq : Request :=
  { method := "GET", path := "/", query := "", headers := [], payload := "" }

/-- A GET request for the root path with a query string, extra headers
and a payload. -/
def getRootReqB : Request :=
  { method := "GET", path := "/", query := "a=1&b=2",
    headers := [("X-Test", "yes"), ("Accept", "text/plain")], payload := "ignored" }

/-- A HEAD request for the root path. -/
def headRootReq : Request :=
  { method := "HEAD", path := "/", query := "", headers := [], payload := "" }

/-- A POST request for the root path. -/
def postRootReq : Request :=
  { method := "POST", path := "/", query := "", headers := [], payload := "x=1" }

/-- A GET request for a path with no registered route. -/
def missingReq : Request :=
  { method := "GET", path := "/missing", query := "", headers := [], payload := "" }

set_option maxRecDepth 100000

/-- The fixed template contains no Jinja2 delimiter, so rendering it
yields it back unchanged (it does not end in a newline, so the
trailing-newline strip does not fire either). -/
theorem index_eq : index = some htmlTemplate := by decide

/-- A GET request for `/` is dispatched to the 200 response carrying
the rendered fixed document. -/
theorem dispatch_get_root (req : Request) (hm : req.method = "GET")
    (hp : req.path = "/") :
    dispatch req =
      { status := 200, contentType := htmlContentType, body := htmlTemplate } := by
  unfold dispatch
  rw [hp, hm, index_eq]
  rfl

/-- Threading the server state through a request leaves it unchanged. -/
theorem serveFrom_fst (st : ServerState) (reqs : List Request) :
    (serveFrom st reqs).1 = st := by
  induction reqs generalizing st with
  | nil => rfl
  | cons r rs ih => simpa [serveFrom, dispatchSt] using ih st

/-- The responses produced by serving a request list are the pointwise
dispatch of the requests, whatever the starting state. -/
theorem serveFrom_snd (st : ServerState) (reqs : List Request) :
    (serveFrom st reqs).2 = reqs.map dispatch := by
  induction reqs generalizing st with
  | nil => rfl
  | cons r rs ih => simp [serveFrom, dispatchSt, ih]

/-- C1: every HTTP request with method GET and path `/` is answered
with status 200, a `Content-Type` header of `text/html` (Flask appends
the charset parameter), and a body equal to the fixed HTML document. -/
theorem c1_get_root_fixed_document (req : Request)
    (hm : req.method = "GET") (hp : req.path = "/") :
    (dispatch req).status = 200 ∧
    beginsWith (dispatch req).contentType "text/html" = true ∧
    (dispatch req).body = htmlTemplate := by
  rw [dispatch_get_root req hm hp]
  exact ⟨rfl, by decide, rfl⟩

/-- Witness for C1 at a concrete GET request for `/`. -/
theorem c1_witness :
    getRootReq.method = "GET" ∧ getRootReq.path = "/" ∧
    ((dispatch getRootReq).status = 200 ∧
     beginsWith (dispatch getRootReq).contentType "text/html" = true ∧
     (dispatch getRootReq).body = htmlTemplate) :=
  ⟨rfl, rfl, c1_get_root_fixed_document getRootReq rfl rfl⟩

/-- C2: the body served for GET `/` contains the title element, the
emoji heading, the three paragraph texts, and in particular the
literal substrings named by the spec. -/
theorem c2_body_contains_fixed_texts (req : Request)
    (hm : req.method = "GET") (hp : req.path = "/") :
    containsSubstr (dispatch req).body "<title>Microservices Architecture</title>" = true ∧
    containsSubstr (dispatch req).body "<h1>🏗️ Microservices Architecture</h1>" = true ∧
    containsSubstr (dispatch req).body "<p>Professional microservices architecture implementation</p>" = true ∧
    containsSubstr (dispatch req).body "<p>Scalable, distributed system design</p>" = true ∧
    containsSubstr (dispatch req).body "<p>Docker containers, API Gateway, Service Discovery</p>" = true ∧
    containsSubstr (dispatch req).body "Microservices Architecture" = true ∧
    containsSubstr (dispatch req).body "Docker containers, API Gateway, Service Discovery" = true := by
  rw [dispatch_get_root req hm hp]
  exact ⟨by decide, by decide, by decide, by decide, by decide, by decide, by decide⟩

/-- Witness for C2 at a concrete GET request for `/`. -/
theorem c2_witness :
    getRootReq.method = "GET" ∧ getRootReq.path = "/" ∧
    containsSubstr (dispatch getRootReq).body "Microservices Architecture" = true ∧
    containsSubstr (dispatch getRootReq).body "Docker containers, API Gateway, Service Discovery" = true :=
  ⟨rfl, rfl, (c2_body_contains_fixed_texts getRootReq rfl rfl).2.2.2.2.2.1,
    (c2_body_contains_fixed_texts getRootReq rfl rfl).2.2.2.2.2.2⟩

/-- C3: any request whose path is not `/` receives the framework's
standard 404: a non-200 status and the Werkzeug default not-found
body, which neither is nor contains the application's document. -/
theorem c3_other_paths_not_found (req : Request) (hp : req.path ≠ "/") :
    (dispatch req).status = 404 ∧
    (dispatch req).status ≠ 200 ∧
    (dispatch req).body = notFoundBody ∧
    (dispatch req).body ≠ htmlTemplate := by
  unfold dispatch
  rw [if_neg hp]
  exact ⟨rfl, by decide, rfl, by decide⟩

/-- Witness for C3 at a concrete request for `/missing`. -/
theorem c3_witness :
    missingReq.path ≠ "/" ∧
    ((dispatch missingReq).status = 404 ∧
     (dispatch missingReq).status ≠ 200 ∧
     (dispatch missingReq).body = notFoundBody ∧
     (dispatch missingReq).body ≠ htmlTemplate) :=
  ⟨by decide, c3_other_paths_not_found missingReq (by decide)⟩

/-- C4 counterexample: a HEAD request for `/` has a method other than
GET, yet Werkzeug (which adds HEAD automatically to a GET rule)
answers it with status 200 — not with the standard 405/404
method-not-allowed/not-found behaviour the claim states. -/
theorem c4_counterexample :
    headRootReq.method ≠ "GET" ∧ headRootReq.path = "/" ∧
    (dispatch headRootReq).status = 200 ∧
    (dispatch headRootReq).status ≠ 405 ∧
    (dispatch headRootReq).status ≠ 404 := by
  refine ⟨by decide, rfl, ?_, ?_, ?_⟩ <;> decide

/-- C4 (amended): a request for `/` whose method is none of GET, HEAD,
OPTIONS receives the framework's standard 405 method-not-allowed; and
no request for `/` with a method other than GET is ever answered by a
200 carrying the page body. -/
theorem c4_non_get_root (req : Request) (hp : req.path = "/")
    (hm : req.method ≠ "GET") :
    ((req.method ≠ "HEAD" ∧ req.method ≠ "OPTIONS") →
      (dispatch req).status = 405 ∧ (dispatch req).body = methodNotAllowedBody) ∧
    ¬((dispatch req).status = 200 ∧ (dispatch req).body = htmlTemplate) := by
  unfold dispatch
  rw [hp, if_pos rfl, if_neg hm]
  by_cases hh : req.method = "HEAD"
  · rw [if_pos hh]
    refine ⟨fun hc => absurd hh hc.1, fun hc => ?_⟩
    exact absurd hc.2 (by decide)
  · rw [if_neg hh]
    by_cases ho : req.method = "OPTIONS"
    · rw [if_pos ho]
      refine ⟨fun hc => absurd ho hc.2, fun hc => ?_⟩
      exact absurd hc.2 (by decide)
    · rw [if_neg ho]
      refine ⟨fun _ => ⟨rfl, rfl⟩, fun hc => ?_⟩
      exact absurd hc.2 (by decide)

/-- Witness for the amended C4 at a concrete POST request for `/`. -/
theorem c4_witness :
    postRootReq.path = "/" ∧ postRootReq.method ≠ "GET" ∧
    (((postRootReq.method ≠ "HEAD" ∧ postRootReq.method ≠ "OPTIONS") →
       (dispatch postRootReq).status = 405 ∧
       (dispatch postRootReq).body = methodNotAllowedBody) ∧
     ¬((dispatch postRootReq).status = 200 ∧
       (dispatch postRootReq).body = htmlTemplate)) :=
  ⟨rfl, by decide, c4_non_get_root postRootReq rfl (by decide)⟩

/-- C5: over any sequence of requests served in order from any starting
state, the bodies answered at any two positions holding GET requests
for `/` are byte-identical, and the server state after the whole
sequence is the state it started in (no hidden state mutation). -/
theorem c5_repeated_get_root_identical (st : ServerState) (reqs : List Request)
    (i j : Nat) (hi : i < reqs.length) (hj : j < reqs.length)
    (hi' : i < (serveFrom st reqs).2.length) (hj' : j < (serveFrom st reqs).2.length)
    (hmi : (reqs.get ⟨i, hi⟩).method = "GET") (hpi : (reqs.get ⟨i, hi⟩).path = "/")
    (hmj : (reqs.get ⟨j, hj⟩).method = "GET") (hpj : (reqs.get ⟨j, hj⟩).path = "/") :
    ((serveFrom st reqs).2.get ⟨i, hi'⟩).body = ((serveFrom st reqs).2.get ⟨j, hj'⟩).body ∧
    (serveFrom st reqs).1 = st := by
  refine ⟨?_, serveFrom_fst st reqs⟩
  have hsnd := serveFrom_snd st reqs
  have hgi : (serveFrom st reqs).2.get ⟨i, hi'⟩ = dispatch (reqs.get ⟨i, hi⟩) := by
    simp [List.get_eq_getElem, hsnd]
  have hgj : (serveFrom st reqs).2.get ⟨j, hj'⟩ = dispatch (reqs.get ⟨j, hj⟩) := by
    simp [List.get_eq_getElem, hsnd]
  rw [hgi, hgj, dispatch_get_root _ hmi hpi, dispatch_get_root _ hmj hpj]

/-- Witness for C5: two concrete GET requests for `/` in one run. -/
theorem c5_witness :
    0 < ([getRootReq, getRootReqB] : List Request).length ∧
    1 < ([getRootReq, getRootReqB] : List Request).length ∧
    (((serveFrom ⟨[]⟩ [getRootReq, getRootReqB]).2.get ⟨0, by decide⟩).body =
      ((serveFrom ⟨[]⟩ [getRootReq, getRootReqB]).2.get ⟨1, by decide⟩).body ∧
     (serveFrom ⟨[]⟩ [getRootReq, getRootReqB]).1 = ⟨[]⟩) :=
  ⟨by decide, by decide,
    c5_repeated_get_root_identical ⟨[]⟩ [getRootReq, getRootReqB] 0 1
      (by decide) (by decide) (by decide) (by decide) rfl rfl rfl rfl⟩

/-- C6: the handler has no side effects.  With the server state (the
effect log) threaded explicitly, dispatching any request returns the
state untouched, the response is a function of the request alone (the
same from every state), and serving any whole sequence leaves the
state as it was. -/
theorem c6_handler_pure_stateless (st st' : ServerState) (req : Request)
    (reqs : List Request) :
    (dispatchSt st req).1 = st ∧
    (dispatchSt st req).2 = dispatch req ∧
    (dispatchSt st req).2 = (dispatchSt st' req).2 ∧
    (serveFrom st reqs).1 = st :=
  ⟨rfl, rfl, rfl, serveFrom_fst st reqs⟩

/-- C7: the `__main__` block launches the server bound to host
`0.0.0.0`, TCP port 5000, with debug mode enabled. -/
theorem c7_run_configuration :
    mainRunConfig.host = "0.0.0.0" ∧ mainRunConfig.port = 5000 ∧
    mainRunConfig.debug = true := by
  exact ⟨rfl, rfl, rfl⟩

/-- C8: the template literal contains none of the Jinja2 delimiters
(`\x7b\x7b`, `\x7b%`, `\x7b#`), so `render_template_string` is the
identity on it: the rendered value equals the source literal character
for character. -/
theorem c8_render_is_identity :
    hasJinjaDelimiter htmlTemplate = false ∧
    render_template_string htmlTemplate = some htmlTemplate := by
  exact ⟨by decide, by decide⟩

/-- C9: the GET `/` body does not begin with `<!DOCTYPE html>`: it
begins with the literal's leading newline and indentation, every line
of it is empty or carries the four-space indentation, and it ends with
a newline and spaces after `</html>`. -/
theorem c9_body_keeps_literal_indentation (req : Request)
    (hm : req.method = "GET") (hp : req.path = "/") :
    beginsWith (dispatch req).body "<!DOCTYPE html>" = false ∧
    beginsWith (dispatch req).body "\n    " = true ∧
    ((splitOnChar (Char.ofNat 10) (dispatch req).body.data).all
      (fun l => l.isEmpty || listPrefixOf "    ".data l)) = true ∧
    finishesWith (dispatch req).body "</html>\n    " = true := by
  rw [dispatch_get_root req hm hp]
  exact ⟨by decide, by decide, by decide, by decide⟩

/-- Witness for C9 at a concrete GET request for `/`. -/
theorem c9_witness :
    getRootReq.method = "GET" ∧ getRootReq.path = "/" ∧
    (beginsWith (dispatch getRootReq).body "<!DOCTYPE html>" = false ∧
     beginsWith (dispatch getRootReq).body "\n    " = true ∧
     ((splitOnChar (Char.ofNat 10) (dispatch getRootReq).body.data).all
       (fun l => l.isEmpty || listPrefixOf "    ".data l)) = true ∧
     finishesWith (dispatch getRootReq).body "</html>\n    " = true) :=
  ⟨rfl, rfl, c9_body_keeps_literal_indentation getRootReq rfl rfl⟩

/-- C10: the GET `/` response depends on nothing in the request beyond
method and path: two GET requests for `/` differing in query string,
headers or payload receive equal bodies (indeed equal responses). -/
theorem c10_body_independent_of_request_rest (r1 r2 : Request)
    (hm1 : r1.method = "GET") (hp1 : r1.path = "/")
    (hm2 : r2.method = "GET") (hp2 : r2.path = "/") :
    (dispatch r1).body = (dispatch r2).body ∧ dispatch r1 = dispatch r2 := by
  rw [dispatch_get_root r1 hm1 hp1, dispatch_get_root r2 hm2 hp2]
  exact ⟨rfl, rfl⟩

/-- Witness for C10: two GET requests for `/` that differ in query
string, headers and payload get the same body. -/
theorem c10_witness :
    getRootReq.method = "GET" ∧ getRootReq.path = "/" ∧
    getRootReqB.method = "GET" ∧ getRootReqB.path = "/" ∧
    getRootReq.query ≠ getRootReqB.query ∧
    getRootReq.headers ≠ getRootReqB.headers ∧
    getRootReq.payload ≠ getRootReqB.payload ∧
    ((dispatch getRootReq).body = (dispatch getRootReqB).body ∧
     dispatch getRootReq = dispatch getRootReqB) :=
  ⟨rfl, rfl, rfl, rfl, by decide, by decide, by decide,
    c10_body_independent_of_request_rest getRootReq getRootReqB rfl rfl rfl rfl⟩

end MicroservicesApp
